import Mathlib

/-!
Verification of the HTTP-client request execution pipeline of the
nestjs-undici repository (src/http.service.ts and its interfaces),
shallowly embedded in Lean.  JavaScript values that can appear as a
request body are modelled by the inductive `JsVal`; JS plain objects
used as header / parameter records are modelled by association lists
with JS-object update semantics (`objSet`, `objMerge`).  Asynchronous
hook invocation is modelled by explicit traces of `Event`s, since
within one call every hook runs strictly sequentially.
-/

namespace NestjsUndici

/-- Errors thrown by hooks or the transport, identified by their message. -/
abbrev Err := String

/-- A JavaScript runtime value, as far as the pipeline inspects one:
primitives, plain objects, arrays, `FormData` instances, byte buffers
and readable streams (streams are identified by an id; the pipeline
never looks inside one). -/
inductive JsVal where
  | undefined : JsVal
  | null : JsVal
  | bool (b : Bool) : JsVal
  | num (n : Int) : JsVal
  | str (s : String) : JsVal
  | obj (fields : List (String × JsVal)) : JsVal
  | arr (elems : List JsVal) : JsVal
  | formData : JsVal
  | buffer (bytes : List Nat) : JsVal
  | stream (id : Nat) : JsVal

/-- `typeof v === "object"` (note: `typeof null` is `"object"` in JS;
objects, arrays, FormData, buffers and streams are all objects). -/
def typeofObject : JsVal → Bool
  | .null => true
  | .obj _ => true
  | .arr _ => true
  | .formData => true
  | .buffer _ => true
  | .stream _ => true
  | _ => false

/-- `v instanceof FormData`. -/
def instanceofFormData : JsVal → Bool
  | .formData => true
  | _ => false

/-- JS truthiness: `undefined`, `null`, `false`, `0` and `""` are falsy;
every object (including empty ones) is truthy. -/
def truthy : JsVal → Bool
  | .undefined => false
  | .null => false
  | .bool b => b
  | .num n => n != 0
  | .str s => s ≠ ""
  | _ => true

/-- JSON string escaping for the two characters the model cares about. -/
def jsonEscapeChar (c : Char) : String :=
  if c = '"' then "\\\"" else if c = '\\' then "\\\\" else String.singleton c

/-- Escape a string for inclusion in JSON output. -/
def jsonEscape (s : String) : String :=
  s.data.foldl (fun acc c => acc ++ jsonEscapeChar c) ""

/-- Render a list of bytes as a JSON number list body (for Node buffers,
whose `toJSON` is `\x7b"type":"Buffer","data":[..]\x7d`). -/
def jsonBytes : List Nat → String
  | [] => ""
  | [b] => toString b
  | b :: rest => toString b ++ "," ++ jsonBytes rest

mutual

/-- Model of `JSON.stringify`.  Streams and FormData have no own
serialization and render as an empty object; an `undefined` value is
rendered as `null` (in JS it is omitted from objects — a simplification
no theorem below depends on). -/
def jsonStringify : JsVal → String
  | .undefined => "null"
  | .null => "null"
  | .bool b => if b then "true" else "false"
  | .num n => toString n
  | .str s => "\"" ++ jsonEscape s ++ "\""
  | .arr es => "[" ++ jsonStringifyElems es ++ "]"
  | .obj fs => "\x7b" ++ jsonStringifyFields fs ++ "\x7d"
  | .formData => "\x7b\x7d"
  | .buffer bs => "\x7b\"type\":\"Buffer\",\"data\":[" ++ jsonBytes bs ++ "]\x7d"
  | .stream _ => "\x7b\x7d"

/-- Comma-separated serialization of array elements. -/
def jsonStringifyElems : List JsVal → String
  | [] => ""
  | [v] => jsonStringify v
  | v :: rest => jsonStringify v ++ "," ++ jsonStringifyElems rest

/-- Comma-separated serialization of object fields. -/
def jsonStringifyFields : List (String × JsVal) → String
  | [] => ""
  | [(k, v)] => "\"" ++ jsonEscape k ++ "\":" ++ jsonStringify v
  | (k, v) :: rest =>
      "\"" ++ jsonEscape k ++ "\":" ++ jsonStringify v ++ "," ++ jsonStringifyFields rest

end

/-- A JS record of string keys and string values (header maps), kept in
insertion order as JS objects are. -/
abbrev Headers := List (String × String)

/-- Property read `h[k]` on a JS record. -/
def objGet (h : Headers) (k : String) : Option String :=
  (h.find? (fun p => p.1 = k)).map (fun p => p.2)

/-- Property write `h[k] = v` on a JS record: overwrites in place when the
key exists, otherwise appends at the end (JS insertion-order semantics). -/
def objSet (h : Headers) (k v : String) : Headers :=
  if h.any (fun p => p.1 = k) then
    h.map (fun p => if p.1 = k then (k, v) else p)
  else h ++ [(k, v)]

/-- Object spread `\x7b...a, ...b\x7d`: every property of `b` written over `a`. -/
def objMerge (a b : Headers) : Headers :=
  b.foldl (fun acc p => objSet acc p.1 p.2) a

/-- The HTTP method union type of `RequestConfig.method`. -/
inductive Method where
  | GET | POST | PUT | DELETE | PATCH | HEAD | OPTIONS
deriving DecidableEq

/-- The `responseType` union of `RequestConfig`. -/
inductive ResponseType where
  | json | text | stream | arraybuffer
deriving DecidableEq

/-- `RequestConfig` from http.service.ts: one per-call request descriptor.
Optional fields are `Option`; an absent JS record field is `none`.
`params` values are modelled after `URLSearchParams` has applied
`String(...)` to them, hence `String` values. -/
structure RequestConfig where
  url : Option String := none
  method : Option Method := none
  headers : Headers := []
  params : Option (List (String × String)) := none
  data : Option JsVal := none
  timeout : Option Nat := none
  responseType : Option ResponseType := none

/-- A request interceptor (interfaces/http-module.interface.ts): an
optional `onRequest` transform, which may fail, and an optional
`onError` observer.  The spec scopes error-notification hooks as
side-channel observers, so `onError` is modelled by its presence; an
invocation is recorded in the event trace.  `name` models the object's
identity so traces can say which interceptor's hook ran. -/
structure RequestInterceptor where
  name : String
  onRequest : Option (RequestConfig → Except Err RequestConfig) := none
  onError : Bool := false

/-- `HttpResponse` from http.service.ts (the ResponseEnvelope).
Response headers may be multi-valued, hence `JsVal` values. -/
structure HttpResponse where
  data : JsVal
  status : Int
  statusText : String
  headers : List (String × JsVal)

/-- A response interceptor: optional `onResponse` transform (may fail)
and optional `onError` observer, modelled as for `RequestInterceptor`. -/
structure ResponseInterceptor where
  name : String
  onResponse : Option (HttpResponse → Except Err HttpResponse) := none
  onError : Bool := false

/-- `HttpModuleOptions` (interfaces/http-module.interface.ts): the
client configuration.  The undici pool-tuning numbers are carried so
that frame theorems can speak about the whole configuration; the
`agent` override is outside the pure model. -/
structure HttpModuleOptions where
  baseURL : Option String := none
  headers : Headers := []
  timeout : Option Nat := none
  connections : Option Nat := none
  pipelining : Option Nat := none
  keepAliveTimeout : Option Nat := none
  keepAliveMaxTimeout : Option Nat := none
  connectTimeout : Option Nat := none
  bodyTimeout : Option Nat := none
  headersTimeout : Option Nat := none
  interceptorsRequest : List RequestInterceptor := []
  interceptorsResponse : List ResponseInterceptor := []

/-- The `HttpService` instance state: its injected options and the two
interceptor lists that `initializeInterceptors` copies out of them. -/
structure HttpServiceState where
  options : HttpModuleOptions
  requestInterceptors : List RequestInterceptor
  responseInterceptors : List ResponseInterceptor

/-- `initializeInterceptors` (constructor): copy the interceptor lists
out of the options, defaulting to empty. -/
def createService (options : HttpModuleOptions) : HttpServiceState :=
  { options := options
    requestInterceptors := options.interceptorsRequest
    responseInterceptors := options.interceptorsResponse }

/-- Modelled from the spec: the values of `HTTP_DEFAULTS` live in
src/constants/http-module.constant.ts, which is not among the provided
sources; the spec fixes status 200 ↦ "OK", a generic "Error" text for
every other status, default content type `application/json`, default
method GET and default response type `json`. -/
def HTTP_DEFAULTS_OK_STATUS : Int := 200

/-- Modelled from the spec: the "OK" status text of `HTTP_DEFAULTS`. -/
def HTTP_DEFAULTS_OK_STATUS_TEXT : String := "OK"

/-- Modelled from the spec: the generic error status text of `HTTP_DEFAULTS`. -/
def HTTP_DEFAULTS_ERROR_STATUS_TEXT : String := "Error"

/-- Modelled from the spec: the default content type of `HTTP_DEFAULTS`. -/
def HTTP_DEFAULTS_DEFAULT_CONTENT_TYPE : String := "application/json"

/-- Modelled from the spec: the default method of `HTTP_DEFAULTS`. -/
def HTTP_DEFAULTS_DEFAULT_METHOD : Method := Method.GET

/-- Modelled from the spec: the default response type of `HTTP_DEFAULTS`. -/
def HTTP_DEFAULTS_DEFAULT_RESPONSE_TYPE : ResponseType := ResponseType.json

/-- Characters `URLSearchParams` leaves unencoded
(x-www-form-urlencoded unreserved set). -/
def isUrlSafeChar (c : Char) : Bool :=
  (('a' ≤ c && c ≤ 'z') || ('A' ≤ c && c ≤ 'Z') || ('0' ≤ c && c ≤ '9')
    || c = '*' || c = '-' || c = '.' || c = '_')

/-- Upper-case hexadecimal digit for a value below 16. -/
def hexDigitChar (n : Nat) : Char :=
  if n < 10 then Char.ofNat (48 + n) else Char.ofNat (55 + n)

/-- `%XX` percent escape of one byte. -/
def percentEncodeByte (b : Nat) : String :=
  "%" ++ String.singleton (hexDigitChar (b / 16)) ++ String.singleton (hexDigitChar (b % 16))

/-- UTF-8 bytes of a code point. -/
def utf8Bytes (n : Nat) : List Nat :=
  if n < 0x80 then [n]
  else if n < 0x800 then [0xC0 + n / 0x40, 0x80 + n % 0x40]
  else if n < 0x10000 then
    [0xE0 + n / 0x1000, 0x80 + (n / 0x40) % 0x40, 0x80 + n % 0x40]
  else
    [0xF0 + n / 0x40000, 0x80 + (n / 0x1000) % 0x40, 0x80 + (n / 0x40) % 0x40, 0x80 + n % 0x40]

/-- x-www-form-urlencoded encoding of one string, as `URLSearchParams`
serializes keys and values: unreserved characters verbatim, space as
`+`, everything else percent-escaped bytewise. -/
def urlencode (s : String) : String :=
  s.data.foldl
    (fun acc c =>
      acc ++
        (if isUrlSafeChar c then String.singleton c
         else if c = ' ' then "+"
         else String.join ((utf8Bytes c.toNat).map percentEncodeByte))) ""

/-- `new URLSearchParams(params).toString()`: `k=v` pairs in insertion
order joined by `&`, both sides encoded. -/
def serializeQuery (ps : List (String × String)) : String :=
  String.intercalate "&" (ps.map (fun p => urlencode p.1 ++ "=" ++ urlencode p.2))

/-- Character-list prefix test backing `jsStartsWith`. -/
def charsStartWith : List Char → List Char → Bool
  | _, [] => true
  | [], _ :: _ => false
  | c :: cs, p :: ps => c = p && charsStartWith cs ps

/-- JS `s.startsWith(pat)`. -/
def jsStartsWith (s pat : String) : Bool :=
  charsStartWith s.data pat.data

/-- JS `s.includes(c)` for a single character. -/
def jsIncludes (s : String) (c : Char) : Bool :=
  s.data.any (fun x => x = c)

/-- `appendQueryParams` (http.service.ts): no-op when `params` is
absent; otherwise append the serialized query, separated by `?` when
the URL has none yet and `&` otherwise. -/
def appendQueryParams (url : String) (params : Option (List (String × String))) : String :=
  match params with
  | none => url
  | some ps =>
      let queryString := serializeQuery ps
      let separator := if jsIncludes url '?' then "&" else "?"
      url ++ separator ++ queryString

/-- `shouldPrependBaseUrl`: `Boolean(this.options.baseURL && !url.startsWith("http"))`.
A configured base URL is truthy exactly when it is a non-empty string. -/
def shouldPrependBaseUrl (options : HttpModuleOptions) (url : String) : Bool :=
  (match options.baseURL with
   | none => false
   | some b => b ≠ "") && !jsStartsWith url "http"

/-- `buildUrl`: take `config.url || ""`, prefix the configured base URL
when `shouldPrependBaseUrl` says so, then append query parameters. -/
def buildUrl (options : HttpModuleOptions) (config : RequestConfig) : String :=
  let baseUrl := config.url.getD ""
  let urlWithBase :=
    if shouldPrependBaseUrl options baseUrl then options.baseURL.getD "" ++ baseUrl
    else baseUrl
  appendQueryParams urlWithBase config.params

/-- `mergeHeaders`: `\x7b...this.options.headers, ...config.headers\x7d`. -/
def mergeHeaders (options : HttpModuleOptions) (config : RequestConfig) : Headers :=
  objMerge options.headers config.headers

/-- `isJsonSerializable`: `typeof data === "object" && !(data instanceof FormData)`. -/
def isJsonSerializable (data : JsVal) : Bool :=
  typeofObject data && !instanceofFormData data

/-- JS `a || b` on an optional string-valued property read. -/
def jsOrStr (a : Option String) (b : String) : String :=
  match a with
  | some v => if v = "" then b else v
  | none => b

/-- `prepareRequestBody`: returns the (possibly extended) headers and
the body value handed to the transport.  `if (!config.data) return
undefined` is JS truthiness; in the stringify branch the source assigns
`headers["Content-Type"] = headers["Content-Type"] || DEFAULT_CONTENT_TYPE`
and returns `JSON.stringify(config.data)`. -/
def prepareRequestBody (config : RequestConfig) (headers : Headers) :
    Headers × Option JsVal :=
  match config.data with
  | none => (headers, none)
  | some d =>
      if !truthy d then (headers, none)
      else if isJsonSerializable d then
        (objSet headers "Content-Type"
          (jsOrStr (objGet headers "Content-Type") HTTP_DEFAULTS_DEFAULT_CONTENT_TYPE),
         some (JsVal.str (jsonStringify d)))
      else (headers, some d)

/-- JS `a || b` for the numeric timeout fallback
`config.timeout || this.options.timeout` (0 is falsy). -/
def jsOrNat (a b : Option Nat) : Option Nat :=
  match a with
  | some t => if t = 0 then b else some t
  | none => b

/-- The raw undici response object as far as http.service.ts reads it:
a status code, response headers, and a body offering the four reading
operations, each of which may fail (decode error) except raw stream
access, which hands back the live stream. -/
structure RawResponse where
  statusCode : Int
  headers : List (String × JsVal)
  bodyJson : Except Err JsVal
  bodyText : Except Err JsVal
  bodyArrayBuffer : Except Err JsVal
  bodyStream : JsVal

/-- The transport: `request(url, \x7bmethod, headers, body, dispatcher,
bodyTimeout\x7b)` from undici, abstracted as a function of the arguments
http.service.ts passes, which may reject. -/
abbrev Dispatch :=
  String → Method → Headers → Option JsVal → Option Nat → Except Err RawResponse

/-- `parseResponseData`: choose the body reader by
`config.responseType || DEFAULT_RESPONSE_TYPE`; the `stream` reader
returns the body untouched. -/
def parseResponseData (response : RawResponse) (config : RequestConfig) :
    Except Err JsVal :=
  match config.responseType.getD HTTP_DEFAULTS_DEFAULT_RESPONSE_TYPE with
  | .json => response.bodyJson
  | .text => response.bodyText
  | .arraybuffer => response.bodyArrayBuffer
  | .stream => .ok response.bodyStream

/-- `getStatusText`: "OK" for exactly `OK_STATUS`, the generic error
text for every other status code. -/
def getStatusText (statusCode : Int) : String :=
  if statusCode = HTTP_DEFAULTS_OK_STATUS then HTTP_DEFAULTS_OK_STATUS_TEXT
  else HTTP_DEFAULTS_ERROR_STATUS_TEXT

/-- `createHttpResponse`: assemble the ResponseEnvelope from the raw
response and the decoded data. -/
def createHttpResponse (response : RawResponse) (data : JsVal) : HttpResponse :=
  { data := data
    status := response.statusCode
    statusText := getStatusText response.statusCode
    headers := response.headers }

/-- One observable step of a call: a hook invocation (with the value it
received) or the transport dispatch (with everything handed to it). -/
inductive Event where
  | onRequestCalled (name : String) (config : RequestConfig)
  | onRequestErrorHook (name : String) (e : Err)
  | dispatched (url : String) (method : Method) (headers : Headers)
      (body : Option JsVal) (timeout : Option Nat)
  | onResponseCalled (name : String) (response : HttpResponse)
  | onResponseErrorHook (name : String) (e : Err)

/-- `applyRequestInterceptors`: fold the current config through every
interceptor's `onRequest` in registration order (absent hooks are
skipped); on a hook failure invoke that interceptor's own `onError`
when present and re-throw, running no later interceptor. -/
def applyRequestInterceptors :
    List RequestInterceptor → RequestConfig → List Event × Except Err RequestConfig
  | [], config => ([], .ok config)
  | i :: rest, config =>
      match i.onRequest with
      | none => applyRequestInterceptors rest config
      | some f =>
          match f config with
          | .ok config2 =>
              let r := applyRequestInterceptors rest config2
              (Event.onRequestCalled i.name config :: r.1, r.2)
          | .error e =>
              (Event.onRequestCalled i.name config ::
                 (if i.onError then [Event.onRequestErrorHook i.name e] else []),
               .error e)

/-- `applyResponseInterceptors`: symmetric fold of the response through
every `onResponse` hook; a failing hook notifies its own `onError` (if
present) and re-throws, skipping later interceptors. -/
def applyResponseInterceptors :
    List ResponseInterceptor → HttpResponse → List Event × Except Err HttpResponse
  | [], response => ([], .ok response)
  | i :: rest, response =>
      match i.onResponse with
      | none => applyResponseInterceptors rest response
      | some f =>
          match f response with
          | .ok response2 =>
              let r := applyResponseInterceptors rest response2
              (Event.onResponseCalled i.name response :: r.1, r.2)
          | .error e =>
              (Event.onResponseCalled i.name response ::
                 (if i.onError then [Event.onResponseErrorHook i.name e] else []),
               .error e)

/-- `handleRequestError`: broadcast a failure to the `onError` hook of
every response interceptor that has one, in registration order. -/
def handleRequestError (interceptors : List ResponseInterceptor) (e : Err) : List Event :=
  match interceptors with
  | [] => []
  | i :: rest =>
      (if i.onError then [Event.onResponseErrorHook i.name e] else [])
        ++ handleRequestError rest e

/-- `executeRequest`: apply request interceptors, build url/headers/body,
then inside the try block dispatch, decode, assemble the envelope and
apply response interceptors; any failure inside the try runs
`handleRequestError` and is re-thrown.  The request-interceptor phase
sits before the try block, so its failures propagate without the
broadcast.  Returns the (unchanged) service state, the event trace and
the outcome. -/
def executeRequest (svc : HttpServiceState) (dispatch : Dispatch)
    (config : RequestConfig) :
    HttpServiceState × List Event × Except Err HttpResponse :=
  match applyRequestInterceptors svc.requestInterceptors config with
  | (tr, .error e) => (svc, tr, .error e)
  | (tr, .ok finalConfig) =>
      let url := buildUrl svc.options finalConfig
      let headers := mergeHeaders svc.options finalConfig
      let hb := prepareRequestBody finalConfig headers
      let method := finalConfig.method.getD HTTP_DEFAULTS_DEFAULT_METHOD
      let timeout := jsOrNat finalConfig.timeout svc.options.timeout
      let ev := Event.dispatched url method hb.1 hb.2 timeout
      match dispatch url method hb.1 hb.2 timeout with
      | .error e =>
          (svc, tr ++ ev :: handleRequestError svc.responseInterceptors e, .error e)
      | .ok response =>
          match parseResponseData response finalConfig with
          | .error e =>
              (svc, tr ++ ev :: handleRequestError svc.responseInterceptors e, .error e)
          | .ok data =>
              let httpResponse := createHttpResponse response data
              match applyResponseInterceptors svc.responseInterceptors httpResponse with
              | (tr2, .ok finalResponse) => (svc, tr ++ ev :: tr2, .ok finalResponse)
              | (tr2, .error e) =>
                  (svc,
                   tr ++ ev :: (tr2 ++ handleRequestError svc.responseInterceptors e),
                   .error e)

/-- `request(config)`: the generic entry point (the rxjs wrapping adds
nothing to the per-call semantics). -/
def requestOp (svc : HttpServiceState) (dispatch : Dispatch) (config : RequestConfig) :
    HttpServiceState × List Event × Except Err HttpResponse :=
  executeRequest svc dispatch config

/-- `get(url, config)`: `request(\x7b...config, url, method: "GET"\x7d)`. -/
def getOp (svc : HttpServiceState) (dispatch : Dispatch) (url : String)
    (config : RequestConfig) :
    HttpServiceState × List Event × Except Err HttpResponse :=
  requestOp svc dispatch { config with url := some url, method := some Method.GET }

/-- `post(url, data, config)`. -/
def postOp (svc : HttpServiceState) (dispatch : Dispatch) (url : String)
    (data : Option JsVal) (config : RequestConfig) :
    HttpServiceState × List Event × Except Err HttpResponse :=
  requestOp svc dispatch
    { config with url := some url, method := some Method.POST, data := data }

/-- `put(url, data, config)`. -/
def putOp (svc : HttpServiceState) (dispatch : Dispatch) (url : String)
    (data : Option JsVal) (config : RequestConfig) :
    HttpServiceState × List Event × Except Err HttpResponse :=
  requestOp svc dispatch
    { config with url := some url, method := some Method.PUT, data := data }

/-- `delete(url, config)`. -/
def deleteOp (svc : HttpServiceState) (dispatch : Dispatch) (url : String)
    (config : RequestConfig) :
    HttpServiceState × List Event × Except Err HttpResponse :=
  requestOp svc dispatch { config with url := some url, method := some Method.DELETE }

/-- `patch(url, data, config)`. -/
def patchOp (svc : HttpServiceState) (dispatch : Dispatch) (url : String)
    (data : Option JsVal) (config : RequestConfig) :
    HttpServiceState × List Event × Except Err HttpResponse :=
  requestOp svc dispatch
    { config with url := some url, method := some Method.PATCH, data := data }

/-- `head(url, config)`. -/
def headOp (svc : HttpServiceState) (dispatch : Dispatch) (url : String)
    (config : RequestConfig) :
    HttpServiceState × List Event × Except Err HttpResponse :=
  requestOp svc dispatch { config with url := some url, method := some Method.HEAD }

/-- The condition under which `prepareRequestBody` takes its
JSON-stringify branch: a present, truthy, JSON-serializable payload. -/
def willJsonStringify (config : RequestConfig) : Bool :=
  match config.data with
  | none => false
  | some d => truthy d && isJsonSerializable d

/-! Sample values used by closed theorems. -/

/-- A sample raw transport response used to instantiate theorems. -/
def sampleRaw : RawResponse :=
  { statusCode := 404
    headers := []
    bodyJson := .ok JsVal.null
    bodyText := .ok (JsVal.str "hello")
    bodyArrayBuffer := .ok (JsVal.buffer [])
    bodyStream := JsVal.stream 0 }

/-- Options used by concrete URL-building examples. -/
def c7opts : HttpModuleOptions := { baseURL := some "https://api.test.com" }

/-- A successful raw response with status 200 and empty JSON object body. -/
def raw200 : RawResponse :=
  { statusCode := 200
    headers := []
    bodyJson := .ok (JsVal.obj [])
    bodyText := .ok (JsVal.str "")
    bodyArrayBuffer := .ok (JsVal.buffer [])
    bodyStream := JsVal.stream 0 }

/-- The envelope `createHttpResponse` builds from `raw200`. -/
def env200 : HttpResponse :=
  { data := JsVal.obj [], status := 200, statusText := "OK", headers := [] }

/-- A transport that always succeeds with `raw200`. -/
def dispatchOk : Dispatch := fun _ _ _ _ _ => .ok raw200

/-- A transport that always rejects. -/
def dispatchFail : Dispatch := fun _ _ _ _ _ => .error "network down"

/-- A response interceptor whose `onResponse` always fails, with an
`onError` hook. -/
def rThrow : ResponseInterceptor :=
  { name := "R1", onResponse := some (fun _ => .error "boom"), onError := true }

/-- A response interceptor with only an `onError` hook. -/
def rObserve : ResponseInterceptor :=
  { name := "R2", onResponse := none, onError := true }

/-- A service with the two response interceptors above. -/
def svcResp : HttpServiceState :=
  createService { interceptorsResponse := [rThrow, rObserve] }

/-- A service configured with one default header and no interceptors. -/
def svcHdr : HttpServiceState :=
  createService { headers := [("X-Trace", "1")] }

/-- A call with a structured (empty-object) payload. -/
def cfgData : RequestConfig := { url := some "/u", data := some (JsVal.obj []) }

/-- A bare call to `/u`. -/
def cfgBare : RequestConfig := { url := some "/u" }

/-- Request interceptor `A`: adds a header. -/
def riA : RequestInterceptor :=
  { name := "A"
    onRequest := some (fun c => .ok { c with headers := objSet c.headers "X-A" "1" }) }

/-- Request interceptor `B`: always fails, with an `onError` hook. -/
def riB : RequestInterceptor :=
  { name := "B", onRequest := some (fun _ => .error "boom"), onError := true }

/-- Request interceptor `C`: identity transform. -/
def riC : RequestInterceptor :=
  { name := "C", onRequest := some (fun c => .ok c) }

/-- A service with the request interceptor chain `[A, B, C]`. -/
def svcReq : HttpServiceState :=
  createService { interceptorsRequest := [riA, riB, riC] }

/-! Helper lemmas. -/

/-- `executeRequest` hands back the service state it was given in every
branch: no pipeline stage writes to the client's fields. -/
theorem executeRequest_state_eq (svc : HttpServiceState) (dispatch : Dispatch)
    (config : RequestConfig) : (executeRequest svc dispatch config).1 = svc := by
  simp only [executeRequest]
  split
  · rfl
  · split
    · rfl
    · split
      · rfl
      · split <;> rfl

/-- The error-broadcast trace is one `onError` event per interceptor
that has the hook, in registration order: the filter-map normal form. -/
theorem handleRequestError_eq (l : List ResponseInterceptor) (e : Err) :
    handleRequestError l e =
      (l.filter (fun i => i.onError)).map (fun i => Event.onResponseErrorHook i.name e) := by
  induction l with
  | nil => rfl
  | cons i t ih =>
      by_cases hi : i.onError
      · simp [handleRequestError, List.filter_cons, hi, ih]
      · simp [handleRequestError, List.filter_cons, hi, ih]

/-- Splitting the response-interceptor fold at a list append: the
suffix only runs when the prefix succeeded, on the prefix's output. -/
theorem applyResponseInterceptors_append (l1 l2 : List ResponseInterceptor)
    (resp : HttpResponse) :
    applyResponseInterceptors (l1 ++ l2) resp =
      match applyResponseInterceptors l1 resp with
      | (tr, Except.ok resp2) =>
          (tr ++ (applyResponseInterceptors l2 resp2).1,
           (applyResponseInterceptors l2 resp2).2)
      | (tr, Except.error e) => (tr, Except.error e) := by
  induction l1 generalizing resp with
  | nil => simp [applyResponseInterceptors]
  | cons i t ih =>
      cases hi : i.onResponse with
      | none =>
          simp only [List.cons_append, applyResponseInterceptors, hi]
          exact ih resp
      | some f =>
          cases hf : f resp with
          | ok resp2 =>
              simp only [List.cons_append, applyResponseInterceptors, hi, hf,
                List.append_eq]
              rw [ih resp2]
              cases happ : applyResponseInterceptors t resp2 with
              | mk trS r => cases r <;> simp [happ]
          | error e =>
              simp [applyResponseInterceptors, hi, hf]

/-- In the replace branch of `objSet`, searching the written key finds
the written pair. -/
theorem find?_replace_self (t : Headers) (k v : String)
    (hany : t.any (fun p => p.1 = k) = true) :
    (t.map (fun p => if p.1 = k then (k, v) else p)).find? (fun p => p.1 = k) =
      some (k, v) := by
  induction t with
  | nil => simp at hany
  | cons p t ih =>
      by_cases hp : p.1 = k
      · rw [List.map_cons, if_pos hp, List.find?_cons_of_pos _ (by simp)]
      · have hany' : t.any (fun p => p.1 = k) = true := by
          simpa [List.any_cons, hp] using hany
        rw [List.map_cons, if_neg hp, List.find?_cons_of_neg _ (by simp [hp]), ih hany']

/-- In the replace branch of `objSet`, searches for other keys are
unchanged. -/
theorem find?_replace_of_ne (t : Headers) (k k2 v : String) (hne : k2 ≠ k) :
    (t.map (fun p => if p.1 = k then (k, v) else p)).find? (fun p => p.1 = k2) =
      t.find? (fun p => p.1 = k2) := by
  induction t with
  | nil => rfl
  | cons p t ih =>
      by_cases hp : p.1 = k
      · have hp2 : ¬ p.1 = k2 := by
          rw [hp]
          exact Ne.symm hne
        rw [List.map_cons, if_pos hp, List.find?_cons_of_neg _ (by simp [Ne.symm hne]),
          List.find?_cons_of_neg _ (by simp [hp2]), ih]
      · by_cases hp2 : p.1 = k2
        · rw [List.map_cons, if_neg hp, List.find?_cons_of_pos _ (by simp [hp2]),
            List.find?_cons_of_pos _ (by simp [hp2])]
        · rw [List.map_cons, if_neg hp, List.find?_cons_of_neg _ (by simp [hp2]),
            List.find?_cons_of_neg _ (by simp [hp2]), ih]

/-- In the append branch of `objSet` (key absent), searching the new key
finds the appended pair. -/
theorem find?_append_self_of_absent (h : Headers) (k v : String)
    (hany : ¬ h.any (fun p => p.1 = k) = true) :
    (h ++ [(k, v)]).find? (fun p => p.1 = k) = some (k, v) := by
  induction h with
  | nil => simp [List.find?]
  | cons p t ih =>
      have hp : ¬ p.1 = k := fun hk => hany (by simp [List.any_cons, hk])
      have ht : ¬ t.any (fun p => p.1 = k) = true :=
        fun hk => hany (by simp [List.any_cons, hk])
      rw [List.cons_append, List.find?_cons_of_neg _ (by simp [hp]), ih ht]

/-- In the append branch of `objSet`, searches for other keys are
unchanged. -/
theorem find?_append_of_ne (h : Headers) (k k2 v : String) (hne : k2 ≠ k) :
    (h ++ [(k, v)]).find? (fun p => p.1 = k2) = h.find? (fun p => p.1 = k2) := by
  induction h with
  | nil => simp [List.find?, Ne.symm hne]
  | cons p t ih =>
      by_cases hp : p.1 = k2
      · rw [List.cons_append, List.find?_cons_of_pos _ (by simp [hp]),
          List.find?_cons_of_pos _ (by simp [hp])]
      · rw [List.cons_append, List.find?_cons_of_neg _ (by simp [hp]),
          List.find?_cons_of_neg _ (by simp [hp]), ih]

/-- Reading back the key just written. -/
theorem objGet_objSet_self (h : Headers) (k v : String) :
    objGet (objSet h k v) k = some v := by
  unfold objSet objGet
  split
  · next hany => rw [find?_replace_self h k v hany]; rfl
  · next hany => rw [find?_append_self_of_absent h k v hany]; rfl

/-- Writing one key does not disturb reads of another. -/
theorem objGet_objSet_of_ne (h : Headers) (k k2 v : String) (hne : k2 ≠ k) :
    objGet (objSet h k v) k2 = objGet h k2 := by
  unfold objSet objGet
  split
  · rw [find?_replace_of_ne h k k2 v hne]
  · rw [find?_append_of_ne h k k2 v hne]

/-- A key absent from `b` reads from `a` after the spread. -/
theorem objGet_objMerge_of_not_mem (a b : Headers) (k : String)
    (hk : k ∉ b.map Prod.fst) :
    objGet (objMerge a b) k = objGet a k := by
  induction b generalizing a with
  | nil => rfl
  | cons q t ih =>
      have hq : k ≠ q.1 := by
        intro hkq
        exact hk (by simp [hkq])
      have ht : k ∉ t.map Prod.fst := by
        intro hmem
        exact hk (by simp [hmem])
      calc objGet (objMerge a (q :: t)) k
          = objGet (objMerge (objSet a q.1 q.2) t) k := rfl
        _ = objGet (objSet a q.1 q.2) k := ih (objSet a q.1 q.2) ht
        _ = objGet a k := objGet_objSet_of_ne a q.1 k q.2 hq

/-- Spread lookup: a key reads from `b` when `b` has it (its first,
hence by distinctness only, occurrence) and from `a` otherwise — the
per-call record wins on every collision. -/
theorem objGet_objMerge (a b : Headers) (k : String)
    (hb : (b.map Prod.fst).Nodup) :
    objGet (objMerge a b) k =
      match objGet b k with
      | some v => some v
      | none => objGet a k := by
  induction b generalizing a with
  | nil => rfl
  | cons q t ih =>
      have hb' : (q.1 :: t.map Prod.fst).Nodup := by simpa using hb
      have hbt : (t.map Prod.fst).Nodup := (List.nodup_cons.mp hb').2
      by_cases hq : q.1 = k
      · have hknot : k ∉ t.map Prod.fst := hq ▸ (List.nodup_cons.mp hb').1
        calc objGet (objMerge a (q :: t)) k
            = objGet (objMerge (objSet a q.1 q.2) t) k := rfl
          _ = objGet (objSet a q.1 q.2) k := objGet_objMerge_of_not_mem _ t k hknot
          _ = some q.2 := hq ▸ objGet_objSet_self a q.1 q.2
          _ = _ := by simp [objGet, List.find?, hq]
      · have : objGet (objMerge (objSet a q.1 q.2) t) k =
            match objGet t k with
            | some v => some v
            | none => objGet (objSet a q.1 q.2) k := ih (objSet a q.1 q.2) hbt
        calc objGet (objMerge a (q :: t)) k
            = objGet (objMerge (objSet a q.1 q.2) t) k := rfl
          _ = _ := by
              rw [this, objGet_objSet_of_ne a q.1 k q.2 (Ne.symm hq)]
              simp [objGet, List.find?, hq]

/-- The headers coming out of `prepareRequestBody`: untouched unless the
JSON-stringify branch runs, in which case `Content-Type` is written
with its existing non-empty value or the default. -/
theorem prepareRequestBody_fst (config : RequestConfig) (H : Headers) :
    (prepareRequestBody config H).1 =
      if willJsonStringify config then
        objSet H "Content-Type"
          (jsOrStr (objGet H "Content-Type") HTTP_DEFAULTS_DEFAULT_CONTENT_TYPE)
      else H := by
  cases hd : config.data with
  | none => simp [prepareRequestBody, willJsonStringify, hd]
  | some d =>
      by_cases ht : truthy d
      · by_cases hs : isJsonSerializable d
        · simp [prepareRequestBody, willJsonStringify, hd, ht, hs]
        · simp [prepareRequestBody, willJsonStringify, hd, ht, hs]
      · simp [prepareRequestBody, willJsonStringify, hd, ht]

/-! Claim theorems. -/

/-- C9: the `statusText` of the envelope is exactly "OK" for status 200
and the generic "Error" text for every other status code; in particular
404 yields "Error", not "Not Found".  `createHttpResponse` takes its
status text from `getStatusText` applied to the transport status. -/
theorem C9_status_text_policy (s : Int) (raw : RawResponse) (d : JsVal) :
    (getStatusText s = "OK" ↔ s = 200) ∧
    (s ≠ 200 → getStatusText s = "Error") ∧
    getStatusText 404 = "Error" ∧
    getStatusText 404 ≠ "Not Found" ∧
    getStatusText 201 = "Error" ∧
    getStatusText 204 = "Error" ∧
    (createHttpResponse raw d).statusText = getStatusText raw.statusCode := by
  refine ⟨?_, ?_, by decide, by decide, by decide, by decide, rfl⟩
  · by_cases h : s = 200 <;>
      simp [getStatusText, HTTP_DEFAULTS_OK_STATUS, HTTP_DEFAULTS_OK_STATUS_TEXT,
        HTTP_DEFAULTS_ERROR_STATUS_TEXT, h]
  · intro h
    simp [getStatusText, HTTP_DEFAULTS_OK_STATUS, HTTP_DEFAULTS_ERROR_STATUS_TEXT, h]

/-- C9 witness: the policy instantiated at status 404 with a concrete
raw response and payload. -/
theorem C9_status_text_policy_witness :
    ((404 : Int) ≠ 200) ∧ getStatusText 404 = "Error" ∧
      (createHttpResponse sampleRaw JsVal.null).statusText = getStatusText 404 := by
  refine ⟨by decide, (C9_status_text_policy 404 sampleRaw JsVal.null).2.1 (by decide), ?_⟩
  exact (C9_status_text_policy 404 sampleRaw JsVal.null).2.2.2.2.2.2

/-- C10: every request operation (request, get, post, put, delete,
patch, head) leaves the client state — options (base URL, default
headers, timeouts, pool parameters) and both interceptor lists —
exactly as it was, for every transport outcome. -/
theorem C10_config_unchanged (svc : HttpServiceState) (dispatch : Dispatch)
    (url : String) (d : Option JsVal) (config : RequestConfig) :
    (requestOp svc dispatch config).1 = svc ∧
    (getOp svc dispatch url config).1 = svc ∧
    (postOp svc dispatch url d config).1 = svc ∧
    (putOp svc dispatch url d config).1 = svc ∧
    (deleteOp svc dispatch url config).1 = svc ∧
    (patchOp svc dispatch url d config).1 = svc ∧
    (headOp svc dispatch url config).1 = svc := by
  refine ⟨?_, ?_, ?_, ?_, ?_, ?_, ?_⟩ <;> exact executeRequest_state_eq ..

/-- C7 counterexample: the code tests the literal prefix `http`, not a
scheme.  A path with the `ftp` scheme gets the base URL glued in front
of it instead of being used verbatim, and a relative path that merely
begins with the letters `http` is used verbatim instead of being
prefixed with the base URL. -/
theorem C7_scheme_counterexample :
    buildUrl c7opts { url := some "ftp://files.test.com/a" } =
        "https://api.test.comftp://files.test.com/a" ∧
    buildUrl c7opts { url := some "ftp://files.test.com/a" } ≠ "ftp://files.test.com/a" ∧
    buildUrl c7opts { url := some "http-endpoint" } = "http-endpoint" ∧
    buildUrl c7opts { url := some "http-endpoint" } ≠
        "https://api.test.com" ++ "http-endpoint" := by
  refine ⟨rfl, ?_, rfl, ?_⟩ <;> decide

/-- C7 as amended: with a non-empty configured base URL B, a per-call
path P that does not start with the literal prefix `http` is dispatched
as the concatenation `B ++ P` with no inserted separator; a path that
does start with the literal prefix `http` is dispatched verbatim,
regardless of any configured base URL (both before any query suffix,
i.e. with no query parameters). -/
theorem C7_url_resolution :
    (∀ (options : HttpModuleOptions) (B P : String) (config : RequestConfig),
        options.baseURL = some B → B ≠ "" →
        config.url = some P → config.params = none →
        jsStartsWith P "http" = false → buildUrl options config = B ++ P) ∧
    (∀ (options : HttpModuleOptions) (P : String) (config : RequestConfig),
        config.url = some P → config.params = none →
        jsStartsWith P "http" = true → buildUrl options config = P) := by
  constructor
  · intro options B P config hB hBne hP hq hpre
    simp [buildUrl, shouldPrependBaseUrl, appendQueryParams, hB, hBne, hP, hq, hpre]
  · intro options P config hP hq hpre
    simp [buildUrl, shouldPrependBaseUrl, appendQueryParams, hP, hq, hpre]

/-- C7 witness: both amended directions at concrete inputs. -/
theorem C7_url_resolution_witness :
    buildUrl c7opts { url := some "/users/1" } = "https://api.test.com" ++ "/users/1" ∧
    buildUrl c7opts { url := some "http://other.test/x" } = "http://other.test/x" := by
  constructor
  · exact C7_url_resolution.1 c7opts "https://api.test.com" "/users/1" _
      rfl (by decide) rfl rfl (by decide)
  · exact C7_url_resolution.2 c7opts "http://other.test/x" _ rfl rfl (by decide)

/-- C8: with a non-empty query mapping whose keys are distinct, the
dispatched URL is the resolved URL (the same call without params)
extended by the standard-encoded serialization of the mapping, joined
by `?` when the resolved URL contains no `?` and by `&` otherwise, and
every key of the mapping contributes exactly one `k=v` component, hence
appears exactly once. -/
theorem C8_query_string (options : HttpModuleOptions) (config : RequestConfig)
    (ps : List (String × String)) (hps : config.params = some ps)
    (_hne : ps ≠ []) (hnodup : (ps.map Prod.fst).Nodup) :
    buildUrl options config =
      buildUrl options { config with params := none } ++
        (if jsIncludes (buildUrl options { config with params := none }) '?'
         then "&" else "?") ++
        serializeQuery ps ∧
    serializeQuery ps =
      String.intercalate "&"
        (ps.map (fun p => urlencode p.1 ++ "=" ++ urlencode p.2)) ∧
    (∀ k ∈ ps.map Prod.fst, (ps.map Prod.fst).count k = 1) := by
  refine ⟨?_, rfl, ?_⟩
  · simp only [buildUrl, hps, appendQueryParams]
  · intro k hk
    exact List.count_eq_one_of_mem hnodup hk

/-- C8 witness: two parameters on a query-free URL, with a space
encoded as `+`. -/
theorem C8_query_string_witness :
    buildUrl {} { url := some "/posts", params := some [("userId", "1"), ("q", "a b")] } =
      "/posts" ++ "?" ++ serializeQuery [("userId", "1"), ("q", "a b")] ∧
    serializeQuery [("userId", "1"), ("q", "a b")] = "userId=1&q=a+b" := by
  constructor
  · exact (C8_query_string {} _ [("userId", "1"), ("q", "a b")] rfl (by decide)
      (by decide)).1
  · rfl

/-- C5: a present structured payload (a plain object or an array) is
JSON-serialized into the transport body; the headers handed on carry
`Content-Type: application/json` when the merge of default and per-call
headers had no (non-empty) `Content-Type`, keep a caller-supplied
non-empty `Content-Type` value, and are untouched at every other key. -/
theorem C5_structured_body_json (options : HttpModuleOptions) (config : RequestConfig)
    (H : Headers) (d : JsVal)
    (_hH : H = mergeHeaders options config)
    (hd : config.data = some d)
    (hstruct : (∃ fs, d = JsVal.obj fs) ∨ (∃ es, d = JsVal.arr es)) :
    (prepareRequestBody config H).2 = some (JsVal.str (jsonStringify d)) ∧
    (objGet H "Content-Type" = none →
      objGet (prepareRequestBody config H).1 "Content-Type" = some "application/json") ∧
    (∀ v, objGet H "Content-Type" = some v → v ≠ "" →
      objGet (prepareRequestBody config H).1 "Content-Type" = some v) ∧
    (∀ k, k ≠ "Content-Type" → objGet (prepareRequestBody config H).1 k = objGet H k) := by
  have hser : isJsonSerializable d = true := by
    rcases hstruct with ⟨fs, rfl⟩ | ⟨es, rfl⟩ <;>
      simp [isJsonSerializable, typeofObject, instanceofFormData]
  have htru : truthy d = true := by
    rcases hstruct with ⟨fs, rfl⟩ | ⟨es, rfl⟩ <;> simp [truthy]
  refine ⟨?_, ?_, ?_, ?_⟩
  · simp [prepareRequestBody, hd, htru, hser]
  · intro hnone
    simp [prepareRequestBody, hd, htru, hser, jsOrStr, hnone,
      HTTP_DEFAULTS_DEFAULT_CONTENT_TYPE, objGet_objSet_self]
  · intro v hv hvne
    simp [prepareRequestBody, hd, htru, hser, jsOrStr, hv, hvne, objGet_objSet_self]
  · intro k hk
    simp [prepareRequestBody, hd, htru, hser, objGet_objSet_of_ne _ _ _ _ hk]

/-- C5 witness: a one-field object posted with no headers at all. -/
theorem C5_structured_body_json_witness :
    (prepareRequestBody { data := some (JsVal.obj [("name", JsVal.str "New User")]) } []).2 =
      some (JsVal.str "\x7b\"name\":\"New User\"\x7d") ∧
    objGet (prepareRequestBody
        { data := some (JsVal.obj [("name", JsVal.str "New User")]) } []).1 "Content-Type" =
      some "application/json" := by
  have h := C5_structured_body_json {}
    { data := some (JsVal.obj [("name", JsVal.str "New User")]) } [] _
    rfl rfl (Or.inl ⟨_, rfl⟩)
  exact ⟨h.1, h.2.1 rfl⟩

/-- C6 counterexample: with default header `X-Trace: 1`, no per-call
headers and a structured payload, the headers handed to the transport
carry an injected `Content-Type: application/json`, so they are not
the plain merge of default and per-call headers. -/
theorem C6_merge_counterexample :
    (executeRequest svcHdr dispatchOk cfgData).2.1 =
      [Event.dispatched "/u" Method.GET
        [("X-Trace", "1"), ("Content-Type", "application/json")]
        (some (JsVal.str "\x7b\x7d")) none] ∧
    mergeHeaders svcHdr.options cfgData = [("X-Trace", "1")] ∧
    ([("X-Trace", "1"), ("Content-Type", "application/json")] : Headers) ≠
      [("X-Trace", "1")] := by
  refine ⟨rfl, rfl, by decide⟩

/-- C6 as amended: the headers handed to the transport are the mapping
union of the default headers overlaid by the (post-interceptor)
per-call headers, with the per-call value winning on every key
collision — except that when the call carries a JSON-stringified
payload, the `Content-Type` key is additionally set (to its existing
non-empty merged value, or `application/json` when absent or empty). -/
theorem C6_merged_headers_dispatched (svc : HttpServiceState) (dispatch : Dispatch)
    (config : RequestConfig) (tr : List Event) (finalConfig : RequestConfig)
    (hreq : applyRequestInterceptors svc.requestInterceptors config =
      (tr, Except.ok finalConfig)) :
    (∃ rest,
        (executeRequest svc dispatch config).2.1 =
          tr ++ Event.dispatched (buildUrl svc.options finalConfig)
              (finalConfig.method.getD HTTP_DEFAULTS_DEFAULT_METHOD)
              (prepareRequestBody finalConfig (mergeHeaders svc.options finalConfig)).1
              (prepareRequestBody finalConfig (mergeHeaders svc.options finalConfig)).2
              (jsOrNat finalConfig.timeout svc.options.timeout) :: rest) ∧
    mergeHeaders svc.options finalConfig =
      objMerge svc.options.headers finalConfig.headers ∧
    ((finalConfig.headers.map Prod.fst).Nodup → ∀ k,
        objGet (objMerge svc.options.headers finalConfig.headers) k =
          match objGet finalConfig.headers k with
          | some v => some v
          | none => objGet svc.options.headers k) ∧
    (willJsonStringify finalConfig = false →
        (prepareRequestBody finalConfig (mergeHeaders svc.options finalConfig)).1 =
          mergeHeaders svc.options finalConfig) ∧
    (willJsonStringify finalConfig = true →
        (prepareRequestBody finalConfig (mergeHeaders svc.options finalConfig)).1 =
          objSet (mergeHeaders svc.options finalConfig) "Content-Type"
            (jsOrStr (objGet (mergeHeaders svc.options finalConfig) "Content-Type")
              "application/json")) := by
  refine ⟨?_, rfl, ?_, ?_, ?_⟩
  · simp only [executeRequest, hreq]
    split
    · exact ⟨_, rfl⟩
    · split
      · exact ⟨_, rfl⟩
      · split <;> exact ⟨_, rfl⟩
  · intro hnodup k
    exact objGet_objMerge svc.options.headers finalConfig.headers k hnodup
  · intro hno
    rw [prepareRequestBody_fst, hno]
    rfl
  · intro hyes
    rw [prepareRequestBody_fst, hyes]
    rfl

/-- C6 witness: the amended statement instantiated on the concrete
service with default header `X-Trace: 1` and the structured payload. -/
theorem C6_merged_headers_dispatched_witness :
    willJsonStringify cfgData = true ∧
    (prepareRequestBody cfgData (mergeHeaders svcHdr.options cfgData)).1 =
      objSet (mergeHeaders svcHdr.options cfgData) "Content-Type"
        (jsOrStr (objGet (mergeHeaders svcHdr.options cfgData) "Content-Type")
          "application/json") :=
  ⟨rfl, (C6_merged_headers_dispatched svcHdr dispatchOk cfgData [] cfgData rfl).2.2.2.2 rfl⟩

/-- C2: when the transport dispatch itself fails, every response
interceptor with an `onError` hook is notified exactly once, in
registration order (the filter-map of the configured list), and the
call rejects with the original, unchanged error. -/
theorem C2_dispatch_failure_broadcast (svc : HttpServiceState) (dispatch : Dispatch)
    (config : RequestConfig) (tr : List Event) (finalConfig : RequestConfig) (e : Err)
    (hreq : applyRequestInterceptors svc.requestInterceptors config =
      (tr, Except.ok finalConfig))
    (hdisp : ∀ u m hs b t, dispatch u m hs b t = Except.error e) :
    executeRequest svc dispatch config =
      (svc,
       tr ++ Event.dispatched (buildUrl svc.options finalConfig)
           (finalConfig.method.getD HTTP_DEFAULTS_DEFAULT_METHOD)
           (prepareRequestBody finalConfig (mergeHeaders svc.options finalConfig)).1
           (prepareRequestBody finalConfig (mergeHeaders svc.options finalConfig)).2
           (jsOrNat finalConfig.timeout svc.options.timeout) ::
         (svc.responseInterceptors.filter (fun i => i.onError)).map
           (fun i => Event.onResponseErrorHook i.name e),
       Except.error e) := by
  simp only [executeRequest, hreq, hdisp, handleRequestError_eq]

/-- C2 witness: two response interceptors (both with `onError`) and an
always-failing transport; both hooks fire, in order, and the original
error is re-raised. -/
theorem C2_dispatch_failure_broadcast_witness :
    executeRequest svcResp dispatchFail cfgBare =
      (svcResp,
       [Event.dispatched "/u" Method.GET [] none none,
        Event.onResponseErrorHook "R1" "network down",
        Event.onResponseErrorHook "R2" "network down"],
       Except.error "network down") :=
  C2_dispatch_failure_broadcast svcResp dispatchFail cfgBare [] cfgBare "network down"
    rfl (fun _ _ _ _ _ => rfl)

/-- C3: with request interceptors `[A, B, C]`, when `A`'s hook maps the
call's descriptor to a new one and `B`'s hook then fails, the recorded
trace is exactly: `A` invoked on the original descriptor, `B` invoked
on `A`'s output, then `B`'s own `onError` (when present) — `C` never
runs, no other error hook fires, no dispatch event exists, and the call
rejects with `B`'s error.  When all three hooks succeed, they run in
order `A`, `B`, `C`, each on the previous one's output. -/
theorem C3_request_chain_order (svc : HttpServiceState) (dispatch : Dispatch)
    (A B C : RequestInterceptor) (fa fb : RequestConfig → Except Err RequestConfig)
    (config cfg1 : RequestConfig) (e : Err)
    (hlist : svc.requestInterceptors = [A, B, C])
    (hA : A.onRequest = some fa) (hA1 : fa config = Except.ok cfg1)
    (hB : B.onRequest = some fb) (hBe : fb cfg1 = Except.error e) :
    executeRequest svc dispatch config =
      (svc,
       Event.onRequestCalled A.name config :: Event.onRequestCalled B.name cfg1 ::
         (if B.onError then [Event.onRequestErrorHook B.name e] else []),
       Except.error e) ∧
    (∀ (fc : RequestConfig → Except Err RequestConfig) (c0 c1 c2 c3 : RequestConfig),
        fa c0 = Except.ok c1 → fb c1 = Except.ok c2 →
        C.onRequest = some fc → fc c2 = Except.ok c3 →
        applyRequestInterceptors svc.requestInterceptors c0 =
          ([Event.onRequestCalled A.name c0, Event.onRequestCalled B.name c1,
            Event.onRequestCalled C.name c2], Except.ok c3)) := by
  constructor
  · have happ : applyRequestInterceptors [A, B, C] config =
        (Event.onRequestCalled A.name config :: Event.onRequestCalled B.name cfg1 ::
          (if B.onError then [Event.onRequestErrorHook B.name e] else []),
         Except.error e) := by
      simp [applyRequestInterceptors, hA, hA1, hB, hBe]
    simp only [executeRequest, hlist, happ]
  · intro fc c0 c1 c2 c3 h1 h2 hC h3
    simp [applyRequestInterceptors, hlist, hA, hB, hC, h1, h2, h3]

/-- C3 witness: the concrete chain `[A, B, C]` where `A` adds a header
and `B` fails; only `A` and `B` ran, `B`'s error hook fired, no
dispatch happened, and the call rejected with `B`'s error. -/
theorem C3_request_chain_order_witness :
    executeRequest svcReq dispatchOk cfgBare =
      (svcReq,
       [Event.onRequestCalled "A" cfgBare,
        Event.onRequestCalled "B" { cfgBare with headers := [("X-A", "1")] },
        Event.onRequestErrorHook "B" "boom"],
       Except.error "boom") :=
  (C3_request_chain_order svcReq dispatchOk riA riB riC _ _ cfgBare
      { cfgBare with headers := [("X-A", "1")] } "boom" rfl rfl rfl rfl rfl).1

/-- C1 counterexample: response interceptor `R1`'s `onResponse` fails
while `R2` (a later interceptor with an `onError` hook) is configured.
`R2`'s `onError` IS invoked with the failure — the error escapes into
the dispatch-failure handler, which broadcasts to every response
interceptor's `onError` (so `R1`'s own hook even fires twice) —
contradicting the claim that no other interceptor's error hook in the
phase is invoked. -/
theorem C1_local_error_counterexample :
    (executeRequest svcResp dispatchOk cfgBare).2.1 =
      [Event.dispatched "/u" Method.GET [] none none,
       Event.onResponseCalled "R1" env200,
       Event.onResponseErrorHook "R1" "boom",
       Event.onResponseErrorHook "R1" "boom",
       Event.onResponseErrorHook "R2" "boom"] ∧
    Event.onResponseErrorHook "R2" "boom" ∈
      (executeRequest svcResp dispatchOk cfgBare).2.1 := by
  have h : (executeRequest svcResp dispatchOk cfgBare).2.1 =
      [Event.dispatched "/u" Method.GET [] none none,
       Event.onResponseCalled "R1" env200,
       Event.onResponseErrorHook "R1" "boom",
       Event.onResponseErrorHook "R1" "boom",
       Event.onResponseErrorHook "R2" "boom"] := rfl
  refine ⟨h, ?_⟩
  rw [h]
  simp

/-- C1 as amended: when some response interceptor's `onResponse` fails
after the interceptors before it succeeded, that interceptor's own
`onError` hook (when present) is invoked and no later interceptor's
`onResponse` runs; but before the failure reaches the caller it passes
through the dispatch-error handler, which additionally notifies the
`onError` hook of every response interceptor in registration order
(the failing one hence twice); the call then rejects with the hook's
error. -/
theorem C1_response_error_flow (svc : HttpServiceState) (dispatch : Dispatch)
    (config : RequestConfig) (tr : List Event) (finalConfig : RequestConfig)
    (raw : RawResponse) (data : JsVal) (pre post : List ResponseInterceptor)
    (fi : ResponseInterceptor) (f : HttpResponse → Except Err HttpResponse)
    (resp2 : HttpResponse) (tr2 : List Event) (e : Err)
    (hreq : applyRequestInterceptors svc.requestInterceptors config =
      (tr, Except.ok finalConfig))
    (hdisp : ∀ u m hs b t, dispatch u m hs b t = Except.ok raw)
    (hparse : parseResponseData raw finalConfig = Except.ok data)
    (hresp : svc.responseInterceptors = pre ++ fi :: post)
    (hpre : applyResponseInterceptors pre (createHttpResponse raw data) =
      (tr2, Except.ok resp2))
    (hf : fi.onResponse = some f) (hfe : f resp2 = Except.error e) :
    executeRequest svc dispatch config =
      (svc,
       tr ++ Event.dispatched (buildUrl svc.options finalConfig)
           (finalConfig.method.getD HTTP_DEFAULTS_DEFAULT_METHOD)
           (prepareRequestBody finalConfig (mergeHeaders svc.options finalConfig)).1
           (prepareRequestBody finalConfig (mergeHeaders svc.options finalConfig)).2
           (jsOrNat finalConfig.timeout svc.options.timeout) ::
         ((tr2 ++ Event.onResponseCalled fi.name resp2 ::
             (if fi.onError then [Event.onResponseErrorHook fi.name e] else [])) ++
          ((pre ++ fi :: post).filter (fun i => i.onError)).map
            (fun i => Event.onResponseErrorHook i.name e)),
       Except.error e) := by
  have happly : applyResponseInterceptors (pre ++ fi :: post)
      (createHttpResponse raw data) =
      (tr2 ++ Event.onResponseCalled fi.name resp2 ::
         (if fi.onError then [Event.onResponseErrorHook fi.name e] else []),
       Except.error e) := by
    rw [applyResponseInterceptors_append, hpre]
    simp [applyResponseInterceptors, hf, hfe]
  simp only [executeRequest, hreq, hdisp, hparse, happly, handleRequestError_eq, hresp]

/-- C1 witness: the flow instantiated on the concrete two-interceptor
service, with `R1` failing first in the phase. -/
theorem C1_response_error_flow_witness :
    executeRequest svcResp dispatchOk cfgBare =
      (svcResp,
       [Event.dispatched "/u" Method.GET [] none none,
        Event.onResponseCalled "R1" env200,
        Event.onResponseErrorHook "R1" "boom",
        Event.onResponseErrorHook "R1" "boom",
        Event.onResponseErrorHook "R2" "boom"],
       Except.error "boom") :=
  C1_response_error_flow svcResp dispatchOk cfgBare [] cfgBare raw200 (JsVal.obj [])
    [] [rObserve] rThrow _ env200 [] "boom"
    rfl (fun _ _ _ _ _ => rfl) rfl rfl rfl rfl rfl

/-- C4: the code contradicts the claim (and the repository's README
stream-upload example): `isJsonSerializable` accepts every JS object
except `FormData`, so a readable stream or a raw byte buffer passed as
`data` is JSON-stringified (a stream serializes as an empty JSON
object) and a `Content-Type: application/json` header is injected,
instead of the payload passing through unchanged.  Only `FormData` and
non-object payloads pass through. -/
theorem C4_body_passthrough_evaluation :
    prepareRequestBody { data := some (JsVal.stream 7) } [] =
        ([("Content-Type", "application/json")], some (JsVal.str "\x7b\x7d")) ∧
    (prepareRequestBody { data := some (JsVal.stream 7) } []).2 ≠
        some (JsVal.stream 7) ∧
    prepareRequestBody { data := some (JsVal.buffer [1, 2]) } [] =
        ([("Content-Type", "application/json")],
          some (JsVal.str "\x7b\"type\":\"Buffer\",\"data\":[1,2]\x7d")) ∧
    prepareRequestBody { data := some JsVal.formData } [] =
        ([], some JsVal.formData) := by
  refine ⟨rfl, ?_, rfl, rfl⟩
  intro h
  simp [prepareRequestBody, truthy, isJsonSerializable, typeofObject,
    instanceofFormData, objGet, objSet, jsOrStr] at h

end NestjsUndici
